import Mathlib

/-!
Verification of the zlog logging facade: a shallow embedding of the
package's level mapping, logger construction, configuration mutation,
context-field extraction, rotation control and hlog adapter, with theorems
settling the specification's claims about them.

The embedding transcribes the Go sources: the hertz/hlog seven-level
scheme, the zerolog engine levels and its documented filtering rule
(an event is written iff its level is at or above the logger's filter
level), the `toZerologLevel` / `fromZerologLevel` mappers, `New` with its
functional options, the plain / formatted / context-aware log methods,
`SetLevel` / `SetOutput` on both `ZLogger` and `RotatingLogger`,
`getOtelFields`, `Rotate`, and the `HlogAdapter` delegation layer.
Variadic message arguments are abstracted to the final formatted string;
writers are abstracted to sink handles since only identity, console-vs-JSON
shaping and level filtering matter to the claims.
-/

namespace Zlog

/-- Engine severity levels, from rs/zerolog (`TraceLevel` through `Disabled`). -/
inductive ZLevel where
  | trace
  | debug
  | info
  | warn
  | error
  | fatal
  | panicLevel
  | noLevel
  | disabled
deriving DecidableEq

/-- Numeric value of an engine level (zerolog: TraceLevel = -1, DebugLevel = 0,
InfoLevel = 1, WarnLevel = 2, ErrorLevel = 3, FatalLevel = 4, PanicLevel = 5,
NoLevel = 6, Disabled = 7). -/
def ZLevel.toInt : ZLevel → Int
  | .trace => -1
  | .debug => 0
  | .info => 1
  | .warn => 2
  | .error => 3
  | .fatal => 4
  | .panicLevel => 5
  | .noLevel => 6
  | .disabled => 7

/-- Facade severity levels, from hertz hlog (`LevelTrace` = 0 through
`LevelFatal` = 6): the seven-level scheme. -/
inductive HLevel where
  | trace
  | debug
  | info
  | notice
  | warn
  | error
  | fatal
deriving DecidableEq

/-- Numeric value of a facade level (hlog: LevelTrace = 0 ... LevelFatal = 6). -/
def HLevel.toNat : HLevel → Nat
  | .trace => 0
  | .debug => 1
  | .info => 2
  | .notice => 3
  | .warn => 4
  | .error => 5
  | .fatal => 6

/-- Transcribes `toZerologLevel` (part_001 lines 209-226).  The Go switch merges
`LevelNotice` and `LevelWarn` into one case returning `zerolog.WarnLevel`; its
`default` arm (returning InfoLevel) is unreachable on the seven-level scheme. -/
def toZerologLevel : HLevel → ZLevel
  | .trace => .trace
  | .debug => .debug
  | .info => .info
  | .notice => .warn
  | .warn => .warn
  | .error => .error
  | .fatal => .fatal

/-- Transcribes `fromZerologLevel` (part_001 lines 229-246).  Note the WarnLevel
case returns `LevelNotice`; the default arm returns `LevelInfo`. -/
def fromZerologLevel : ZLevel → HLevel
  | .trace => .trace
  | .debug => .debug
  | .info => .info
  | .warn => .notice
  | .error => .error
  | .fatal => .fatal
  | _ => .info

/-- Transcribes `RotateConfig` (part_002 lines 21-28). -/
structure RotateConfig where
  filename : String
  maxSize : Int
  maxBackups : Int
  maxAge : Int
  compress : Bool
  localTime : Bool
deriving DecidableEq

/-- An output destination: the process stdout, a lumberjack rotation writer
built from a rotation config, or an arbitrary writer identified by a handle. -/
inductive Sink where
  | stdout
  | lumberjack (cfg : RotateConfig)
  | handle (id : Nat)
deriving DecidableEq

/-- The two time-format constants the sources pass to the console writer
(`time.RFC3339` in `New`, `time.DateTime` in `ZLogger.SetOutput`). -/
inductive TimeFormat where
  | rfc3339
  | dateTime
deriving DecidableEq

/-- Model of `zerolog.ConsoleWriter` as configured by the sources: the wrapped
sink and the time format.  (The `FormatLevel` closure is byte-identical at
every construction site and is not modelled.) -/
structure ConsoleWriter where
  out : Sink
  timeFormat : TimeFormat
deriving DecidableEq

/-- The writer handed to `zerolog.New`: either the sink itself (JSON format)
or a console writer wrapping it. -/
inductive Writer where
  | raw (out : Sink)
  | console (cw : ConsoleWriter)
deriving DecidableEq

/-- Model of a `zerolog.Logger` as configured by the sources: filter level,
writer, and the `Timestamp` / `CallerWithSkipFrameCount(3)` decorations. -/
structure ZerologLogger where
  level : ZLevel
  writer : Writer
  timestamp : Bool
  callerSkip : Nat
deriving DecidableEq

/-- The builder chain
`zerolog.New(w).Level(l).With().Timestamp().CallerWithSkipFrameCount(3).Logger()`
used at every engine-construction site in the sources. -/
def zerologBuild (w : Writer) (l : ZLevel) : ZerologLogger :=
  { level := l, writer := w, timestamp := true, callerSkip := 3 }

/-- `zerolog.Logger.Level`: a copy of the logger with a new filter level. -/
def zerologSetLevel (lg : ZerologLogger) (l : ZLevel) : ZerologLogger :=
  { lg with level := l }

/-- One serialized log record: severity, attached string fields, message. -/
structure LogRecord where
  level : ZLevel
  fields : List (String × String)
  msg : String
deriving DecidableEq

/-- Engine contract (zerolog `should`): an event at level `l` is written iff
`l` is at or above the logger's filter level (the default global level is
TraceLevel, so it imposes no further constraint). -/
def zerologEmit (lg : ZerologLogger) (l : ZLevel) (fields : List (String × String))
    (msg : String) : Option LogRecord :=
  if lg.level.toInt ≤ l.toInt then some { level := l, fields := fields, msg := msg } else none

/-- `FormatType` is an integer type in Go. -/
abbrev FormatType := Nat

/-- `ConsoleFormat FormatType = iota` (part_001 line 77). -/
def ConsoleFormat : FormatType := 0

/-- `JSONFormat` (part_001 line 79). -/
def JSONFormat : FormatType := 1

/-- An OpenTelemetry tracer provider: the noop provider or a user one. -/
inductive TracerProvider where
  | noop
  | user (id : Nat)
deriving DecidableEq

/-- Transcribes `config` (part_001 lines 160-167). -/
structure Config where
  output : Sink
  level : HLevel
  tp : TracerProvider
  format : FormatType
  loggerEnrichers : List (ZerologLogger → ZerologLogger)

/-- `Option func(*config)` from the sources (named `GoOption` here since
`Option` is taken in Lean). -/
abbrev GoOption := Config → Config

/-- Transcribes `WithOutput` (part_001 lines 170-174). -/
def WithOutput (w : Sink) : GoOption := fun c => { c with output := w }

/-- Transcribes `WithLevel` (part_001 lines 177-181). -/
def WithLevel (l : HLevel) : GoOption := fun c => { c with level := l }

/-- Transcribes `WithTraceProvider` (part_001 lines 184-192); a nil argument
is replaced by the noop provider. -/
def WithTraceProvider (tp : Option TracerProvider) : GoOption := fun c =>
  match tp with
  | some t => { c with tp := t }
  | none => { c with tp := .noop }

/-- Transcribes `WithFormat` (part_001 lines 195-199). -/
def WithFormat (f : FormatType) : GoOption := fun c => { c with format := f }

/-- Transcribes `WithZerologOptions` (part_001 lines 202-206). -/
def WithZerologOptions (enrichers : List (ZerologLogger → ZerologLogger)) : GoOption :=
  fun c => { c with loggerEnrichers := c.loggerEnrichers ++ enrichers }

/-- Transcribes `ZLogger` (part_001 lines 83-88). -/
structure ZLogger where
  logger : ZerologLogger
  level : HLevel
  tp : TracerProvider
  format : FormatType

/-- The defaults `New` starts from (part_001 lines 95-101). -/
def defaultConfig : Config :=
  { output := .stdout, level := .info, tp := .noop, format := ConsoleFormat,
    loggerEnrichers := [] }

/-- The option-application loop of `New` (part_001 lines 103-105). -/
def buildConfig (options : List GoOption) : Config :=
  options.foldl (fun c opt => opt c) defaultConfig

/-- Transcribes `New` (part_001 lines 94-154): apply the options, build the
engine per the format switch (JSON: raw writer; Console and the default arm:
console writer with RFC3339 time format), apply the enrichers, and store the
configured level, provider and format alongside the engine. -/
def New (options : List GoOption) : ZLogger :=
  let cfg := buildConfig options
  let zlogger :=
    if cfg.format = JSONFormat then
      zerologBuild (.raw cfg.output) (toZerologLevel cfg.level)
    else if cfg.format = ConsoleFormat then
      zerologBuild (.console { out := cfg.output, timeFormat := .rfc3339 })
        (toZerologLevel cfg.level)
    else
      zerologBuild (.console { out := cfg.output, timeFormat := .rfc3339 })
        (toZerologLevel cfg.level)
  let zlogger := cfg.loggerEnrichers.foldl (fun lg e => e lg) zlogger
  { logger := zlogger, level := cfg.level, tp := cfg.tp, format := cfg.format }

/-- Transcribes `ZLogger.SetLevel` (part_001 lines 542-545). -/
def ZLogger.SetLevel (zl : ZLogger) (l : HLevel) : ZLogger :=
  { zl with level := l, logger := zerologSetLevel zl.logger (toZerologLevel l) }

/-- Transcribes `ZLogger.SetOutput` (part_001 lines 547-582): rebuild the
engine with the same format and stored level around the new sink.  The
Console arm uses `time.DateTime` while the default arm uses `time.RFC3339`. -/
def ZLogger.SetOutput (zl : ZLogger) (w : Sink) : ZLogger :=
  if zl.format = JSONFormat then
    { zl with logger := zerologBuild (.raw w) (toZerologLevel zl.level) }
  else if zl.format = ConsoleFormat then
    let cw : ConsoleWriter := { out := w, timeFormat := .dateTime }
    { zl with logger := zerologBuild (.console cw) (toZerologLevel zl.level) }
  else
    let cw : ConsoleWriter := { out := w, timeFormat := .rfc3339 }
    { zl with logger := zerologBuild (.console cw) (toZerologLevel zl.level) }

/-- `ZLogger.Trace` (part_001 lines 249-251); `fmt.Sprint(v...)` is abstracted
to the final message string. -/
def ZLogger.Trace (zl : ZLogger) (msg : String) : Option LogRecord :=
  zerologEmit zl.logger .trace [] msg

/-- `ZLogger.Debug` (part_001 lines 253-255). -/
def ZLogger.Debug (zl : ZLogger) (msg : String) : Option LogRecord :=
  zerologEmit zl.logger .debug [] msg

/-- `ZLogger.Info` (part_001 lines 257-259). -/
def ZLogger.Info (zl : ZLogger) (msg : String) : Option LogRecord :=
  zerologEmit zl.logger .info [] msg

/-- `ZLogger.Notice` (part_001 lines 261-263): emits through the engine's
Warn entry point. -/
def ZLogger.Notice (zl : ZLogger) (msg : String) : Option LogRecord :=
  zerologEmit zl.logger .warn [] msg

/-- `ZLogger.Warn` (part_001 lines 265-267). -/
def ZLogger.Warn (zl : ZLogger) (msg : String) : Option LogRecord :=
  zerologEmit zl.logger .warn [] msg

/-- `ZLogger.Error` (part_001 lines 269-271). -/
def ZLogger.Error (zl : ZLogger) (msg : String) : Option LogRecord :=
  zerologEmit zl.logger .error [] msg

/-- `ZLogger.Fatal` (part_001 lines 273-275); the engine's post-write
`os.Exit` is outside the emission model. -/
def ZLogger.Fatal (zl : ZLogger) (msg : String) : Option LogRecord :=
  zerologEmit zl.logger .fatal [] msg

/-- `ZLogger.Tracef` (part_001 lines 278-280); `Msgf` formatting is abstracted
to the final message string. -/
def ZLogger.Tracef (zl : ZLogger) (msg : String) : Option LogRecord :=
  zerologEmit zl.logger .trace [] msg

/-- `ZLogger.Debugf` (part_001 lines 282-284). -/
def ZLogger.Debugf (zl : ZLogger) (msg : String) : Option LogRecord :=
  zerologEmit zl.logger .debug [] msg

/-- `ZLogger.Infof` (part_001 lines 286-288). -/
def ZLogger.Infof (zl : ZLogger) (msg : String) : Option LogRecord :=
  zerologEmit zl.logger .info [] msg

/-- `ZLogger.Noticef` (part_001 lines 290-292): emits through the engine's
Warn entry point. -/
def ZLogger.Noticef (zl : ZLogger) (msg : String) : Option LogRecord :=
  zerologEmit zl.logger .warn [] msg

/-- `ZLogger.Warnf` (part_001 lines 294-296). -/
def ZLogger.Warnf (zl : ZLogger) (msg : String) : Option LogRecord :=
  zerologEmit zl.logger .warn [] msg

/-- `ZLogger.Errorf` (part_001 lines 298-300). -/
def ZLogger.Errorf (zl : ZLogger) (msg : String) : Option LogRecord :=
  zerologEmit zl.logger .error [] msg

/-- `ZLogger.Fatalf` (part_001 lines 302-304). -/
def ZLogger.Fatalf (zl : ZLogger) (msg : String) : Option LogRecord :=
  zerologEmit zl.logger .fatal [] msg

/-- Dispatch a plain log call at the given facade level to the method of that
name, for stating level-filtering claims uniformly. -/
def logAt (zl : ZLogger) : HLevel → String → Option LogRecord
  | .trace => zl.Trace
  | .debug => zl.Debug
  | .info => zl.Info
  | .notice => zl.Notice
  | .warn => zl.Warn
  | .error => zl.Error
  | .fatal => zl.Fatal

/-- `LogIDKey` (part_001 line 21). -/
def LogIDKey : String := "request_id"

/-- `ReqIDKey` (part_001 line 22); the context key the extractor reads. -/
def ReqIDKey : String := "X-Request-ID"

/-- An OpenTelemetry span context: 128-bit trace id and 64-bit span id
(abstracted to naturals, all-zero meaning invalid) and the byte of trace
flags. -/
structure SpanContext where
  traceID : Nat
  spanID : Nat
  traceFlags : Fin 256
deriving DecidableEq

/-- OTel `SpanContext.IsValid`: both the trace id and the span id are valid
(non-zero). -/
def SpanContext.isValid (sc : SpanContext) : Bool :=
  sc.traceID != 0 && sc.spanID != 0

/-- A request context as the extractor reads it: the value stored under the
`X-Request-ID` key, if any (stringified as the methods do), and the span
context of the span carried by the context. -/
structure Ctx where
  reqID : Option String
  spanCtx : SpanContext
deriving DecidableEq

/-- OTel `trace.SpanFromContext`: a nil context (or one without a span)
yields the noop span, whose span context is all-zero and hence invalid. -/
def spanFromContext : Option Ctx → SpanContext
  | none => { traceID := 0, spanID := 0, traceFlags := 0 }
  | some c => c.spanCtx

/-- One lowercase hexadecimal digit. -/
def hexDigit (n : Nat) : Char :=
  if n < 10 then Char.ofNat (48 + n) else Char.ofNat (87 + n)

/-- `fmt.Sprintf` with verb %02x on a byte value. -/
def hex2 (n : Nat) : String :=
  String.mk [hexDigit (n / 16), hexDigit (n % 16)]

/-- Fixed-width lowercase hex rendering, most significant digit first. -/
def hexPadCore : Nat → Nat → List Char → List Char
  | 0, _, acc => acc
  | k + 1, n, acc => hexPadCore k (n / 16) (hexDigit (n % 16) :: acc)

/-- Fixed-width lowercase hex rendering of a natural. -/
def hexPad (w n : Nat) : String := String.mk (hexPadCore w n [])

/-- OTel `TraceID.String`: 32 lowercase hex characters. -/
def traceIDString (n : Nat) : String := hexPad 32 n

/-- OTel `SpanID.String`: 16 lowercase hex characters. -/
def spanIDString (n : Nat) : String := hexPad 16 n

/-- Transcribes `ZLogger.getOtelFields` (part_001 lines 470-503).  A nil
context yields Go's nil map (`none`); otherwise the fields are appended in
source order: the request id under `LogIDKey` when the context carries one,
then, when the span context is valid, `trace_id` and `span_id` (guarded by
the ids' own validity as in the source) and `trace_flags` when the flags
byte is non-zero, rendered as two lowercase hex characters.  (The Go
receiver is unused.) -/
def getOtelFields (ctx : Option Ctx) : Option (List (String × String)) :=
  match ctx with
  | none => none
  | some c =>
    let fields : List (String × String) := []
    let fields :=
      match c.reqID with
      | some r => fields ++ [(LogIDKey, r)]
      | none => fields
    let sc := spanFromContext (some c)
    let fields :=
      if sc.isValid then
        let fields :=
          if sc.traceID != 0 then fields ++ [("trace_id", traceIDString sc.traceID)]
          else fields
        let fields :=
          if sc.spanID != 0 then fields ++ [("span_id", spanIDString sc.spanID)]
          else fields
        let fields :=
          if sc.traceFlags.val != 0 then fields ++ [("trace_flags", hex2 sc.traceFlags.val)]
          else fields
        fields
      else fields
    some fields

/-- The side effects a context-aware call performs on the span found in the
context: `AddEvent` calls (name, message attribute, level attribute) and the
message of a `SetStatus(codes.Error, msg)` call, if one was made. -/
structure SpanOps where
  events : List (String × String × String)
  statusError : Option String
deriving DecidableEq

/-- No span operations (the span context in the context was invalid). -/
def noSpanOps : SpanOps := { events := [], statusError := none }

/-- Common body of the `Ctx*f` methods (part_001 lines 307-467): extract the
context fields, attach each to the event, emit at the method's engine level,
and when the span in the context is valid add one event named "log" carrying
the message and the method's level name, additionally setting error status
when `markError` holds (the `CtxErrorf` / `CtxFatalf` bodies). -/
def ctxLog (lg : ZerologLogger) (l : ZLevel) (levelName : String) (markError : Bool)
    (ctx : Option Ctx) (msg : String) : Option LogRecord × SpanOps :=
  let fields := (getOtelFields ctx).getD []
  let recOut := zerologEmit lg l fields msg
  let sc := spanFromContext ctx
  let ops :=
    if sc.isValid then
      { events := [("log", msg, levelName)],
        statusError := if markError then some msg else none }
    else noSpanOps
  (recOut, ops)

/-- `ZLogger.CtxTracef` (part_001 lines 307-327). -/
def ZLogger.CtxTracef (zl : ZLogger) (ctx : Option Ctx) (msg : String) :
    Option LogRecord × SpanOps :=
  ctxLog zl.logger .trace "trace" false ctx msg

/-- `ZLogger.CtxDebugf` (part_001 lines 329-349). -/
def ZLogger.CtxDebugf (zl : ZLogger) (ctx : Option Ctx) (msg : String) :
    Option LogRecord × SpanOps :=
  ctxLog zl.logger .debug "debug" false ctx msg

/-- `ZLogger.CtxInfof` (part_001 lines 351-371). -/
def ZLogger.CtxInfof (zl : ZLogger) (ctx : Option Ctx) (msg : String) :
    Option LogRecord × SpanOps :=
  ctxLog zl.logger .info "info" false ctx msg

/-- `ZLogger.CtxNoticef` (part_001 lines 373-393): emits through the engine's
Warn entry point with span-event level name "notice". -/
def ZLogger.CtxNoticef (zl : ZLogger) (ctx : Option Ctx) (msg : String) :
    Option LogRecord × SpanOps :=
  ctxLog zl.logger .warn "notice" false ctx msg

/-- `ZLogger.CtxWarnf` (part_001 lines 395-415). -/
def ZLogger.CtxWarnf (zl : ZLogger) (ctx : Option Ctx) (msg : String) :
    Option LogRecord × SpanOps :=
  ctxLog zl.logger .warn "warn" false ctx msg

/-- `ZLogger.CtxErrorf` (part_001 lines 417-441): additionally marks the span
status as error. -/
def ZLogger.CtxErrorf (zl : ZLogger) (ctx : Option Ctx) (msg : String) :
    Option LogRecord × SpanOps :=
  ctxLog zl.logger .error "error" true ctx msg

/-- `ZLogger.CtxFatalf` (part_001 lines 443-467): additionally marks the span
status as error. -/
def ZLogger.CtxFatalf (zl : ZLogger) (ctx : Option Ctx) (msg : String) :
    Option LogRecord × SpanOps :=
  ctxLog zl.logger .fatal "fatal" true ctx msg

/-- Transcribes `RotatingLogger` (part_002 lines 14-18). -/
structure RotatingLogger where
  baseLogger : ZLogger
  writer : Sink
  config : RotateConfig

/-- Transcribes `NewRotatingLogger` (part_002 lines 31-49): a lumberjack
writer from the config, wrapped by a console-format `ZLogger`. -/
def NewRotatingLogger (cfg : RotateConfig) : RotatingLogger :=
  let lj := Sink.lumberjack cfg
  { baseLogger := New [WithOutput lj, WithFormat ConsoleFormat], writer := lj, config := cfg }

/-- Transcribes `NewRotatingLoggerWithFormat` (part_002 lines 52-70). -/
def NewRotatingLoggerWithFormat (cfg : RotateConfig) (f : FormatType) : RotatingLogger :=
  let lj := Sink.lumberjack cfg
  { baseLogger := New [WithOutput lj, WithFormat f], writer := lj, config := cfg }

/-- Transcribes `RotatingLogger.Rotate` (part_002 lines 160-166): when the
writer is a lumberjack logger, the external `lumberjack.Rotate` result
(passed in as `ljResult`) is propagated unchanged; otherwise an error is
returned. -/
def RotatingLogger.Rotate (rl : RotatingLogger) (ljResult : Except String Unit) :
    Except String Unit :=
  match rl.writer with
  | .lumberjack _ => ljResult
  | _ => .error "unable to rotate: writer is not a lumberjack.Logger"

/-- Transcribes `RotatingLogger.SetLevel` (part_002 lines 177-179). -/
def RotatingLogger.SetLevel (rl : RotatingLogger) (l : HLevel) : RotatingLogger :=
  { rl with baseLogger := rl.baseLogger.SetLevel l }

/-- Transcribes `RotatingLogger.SetOutput` (part_002 lines 182-188): the base
logger is rebuilt from scratch via `New` with only the new writer and the old
stored level as options. -/
def RotatingLogger.SetOutput (rl : RotatingLogger) (w : Sink) : RotatingLogger :=
  { rl with baseLogger := New [WithOutput w, WithLevel rl.baseLogger.level] }

/-- `RotatingLogger.Info` (part_002 line 195): delegation to the base logger. -/
def RotatingLogger.Info (rl : RotatingLogger) (msg : String) : Option LogRecord :=
  rl.baseLogger.Info msg

/-- `RotatingLogger.Error` (part_002 line 198): delegation to the base logger. -/
def RotatingLogger.Error (rl : RotatingLogger) (msg : String) : Option LogRecord :=
  rl.baseLogger.Error msg

/-- Transcribes `HlogAdapter` (adapter.go lines 12-14). -/
structure HlogAdapter where
  logger : ZLogger

/-- Transcribes `NewHlogAdapter` (adapter.go lines 17-21). -/
def NewHlogAdapter (zl : ZLogger) : HlogAdapter := { logger := zl }

/-- `HlogAdapter.Trace` (adapter.go lines 27-29). -/
def HlogAdapter.Trace (h : HlogAdapter) (msg : String) : Option LogRecord :=
  h.logger.Trace msg

/-- `HlogAdapter.Debug` (adapter.go lines 31-33). -/
def HlogAdapter.Debug (h : HlogAdapter) (msg : String) : Option LogRecord :=
  h.logger.Debug msg

/-- `HlogAdapter.Info` (adapter.go lines 35-37). -/
def HlogAdapter.Info (h : HlogAdapter) (msg : String) : Option LogRecord :=
  h.logger.Info msg

/-- `HlogAdapter.Notice` (adapter.go lines 39-41). -/
def HlogAdapter.Notice (h : HlogAdapter) (msg : String) : Option LogRecord :=
  h.logger.Notice msg

/-- `HlogAdapter.Warn` (adapter.go lines 43-45). -/
def HlogAdapter.Warn (h : HlogAdapter) (msg : String) : Option LogRecord :=
  h.logger.Warn msg

/-- `HlogAdapter.Error` (adapter.go lines 47-49). -/
def HlogAdapter.Error (h : HlogAdapter) (msg : String) : Option LogRecord :=
  h.logger.Error msg

/-- `HlogAdapter.Fatal` (adapter.go lines 51-53). -/
def HlogAdapter.Fatal (h : HlogAdapter) (msg : String) : Option LogRecord :=
  h.logger.Fatal msg

/-- `HlogAdapter.Tracef` (adapter.go lines 56-58). -/
def HlogAdapter.Tracef (h : HlogAdapter) (msg : String) : Option LogRecord :=
  h.logger.Tracef msg

/-- `HlogAdapter.Debugf` (adapter.go lines 60-62). -/
def HlogAdapter.Debugf (h : HlogAdapter) (msg : String) : Option LogRecord :=
  h.logger.Debugf msg

/-- `HlogAdapter.Infof` (adapter.go lines 64-66). -/
def HlogAdapter.Infof (h : HlogAdapter) (msg : String) : Option LogRecord :=
  h.logger.Infof msg

/-- `HlogAdapter.Noticef` (adapter.go lines 68-70). -/
def HlogAdapter.Noticef (h : HlogAdapter) (msg : String) : Option LogRecord :=
  h.logger.Noticef msg

/-- `HlogAdapter.Warnf` (adapter.go lines 72-74). -/
def HlogAdapter.Warnf (h : HlogAdapter) (msg : String) : Option LogRecord :=
  h.logger.Warnf msg

/-- `HlogAdapter.Errorf` (adapter.go lines 76-78). -/
def HlogAdapter.Errorf (h : HlogAdapter) (msg : String) : Option LogRecord :=
  h.logger.Errorf msg

/-- `HlogAdapter.Fatalf` (adapter.go lines 80-82). -/
def HlogAdapter.Fatalf (h : HlogAdapter) (msg : String) : Option LogRecord :=
  h.logger.Fatalf msg

/-- `HlogAdapter.CtxTracef` (adapter.go lines 85-87). -/
def HlogAdapter.CtxTracef (h : HlogAdapter) (ctx : Option Ctx) (msg : String) :
    Option LogRecord × SpanOps :=
  h.logger.CtxTracef ctx msg

/-- `HlogAdapter.CtxDebugf` (adapter.go lines 89-91). -/
def HlogAdapter.CtxDebugf (h : HlogAdapter) (ctx : Option Ctx) (msg : String) :
    Option LogRecord × SpanOps :=
  h.logger.CtxDebugf ctx msg

/-- `HlogAdapter.CtxInfof` (adapter.go lines 93-95). -/
def HlogAdapter.CtxInfof (h : HlogAdapter) (ctx : Option Ctx) (msg : String) :
    Option LogRecord × SpanOps :=
  h.logger.CtxInfof ctx msg

/-- `HlogAdapter.CtxNoticef` (adapter.go lines 97-99). -/
def HlogAdapter.CtxNoticef (h : HlogAdapter) (ctx : Option Ctx) (msg : String) :
    Option LogRecord × SpanOps :=
  h.logger.CtxNoticef ctx msg

/-- `HlogAdapter.CtxWarnf` (adapter.go lines 101-103). -/
def HlogAdapter.CtxWarnf (h : HlogAdapter) (ctx : Option Ctx) (msg : String) :
    Option LogRecord × SpanOps :=
  h.logger.CtxWarnf ctx msg

/-- `HlogAdapter.CtxErrorf` (adapter.go lines 105-107). -/
def HlogAdapter.CtxErrorf (h : HlogAdapter) (ctx : Option Ctx) (msg : String) :
    Option LogRecord × SpanOps :=
  h.logger.CtxErrorf ctx msg

/-- `HlogAdapter.CtxFatalf` (adapter.go lines 109-111). -/
def HlogAdapter.CtxFatalf (h : HlogAdapter) (ctx : Option Ctx) (msg : String) :
    Option LogRecord × SpanOps :=
  h.logger.CtxFatalf ctx msg

/-- `HlogAdapter.SetLevel` (adapter.go lines 114-116): mutates the shared
wrapped logger. -/
def HlogAdapter.SetLevel (h : HlogAdapter) (l : HLevel) : HlogAdapter :=
  { h with logger := h.logger.SetLevel l }

/-- `HlogAdapter.SetOutput` (adapter.go lines 118-120): mutates the shared
wrapped logger. -/
def HlogAdapter.SetOutput (h : HlogAdapter) (w : Sink) : HlogAdapter :=
  { h with logger := h.logger.SetOutput w }

/-- `ZLogger` states reachable from `New`, restricted to constructions whose
options leave no logger enrichers, closed under `SetLevel` and `SetOutput`. -/
inductive ReachableNoEnrich : ZLogger → Prop where
  | fromNew (opts : List GoOption) (h : (buildConfig opts).loggerEnrichers = []) :
      ReachableNoEnrich (New opts)
  | stepLevel (zl : ZLogger) (l : HLevel) :
      ReachableNoEnrich zl → ReachableNoEnrich (zl.SetLevel l)
  | stepOutput (zl : ZLogger) (w : Sink) :
      ReachableNoEnrich zl → ReachableNoEnrich (zl.SetOutput w)

/-- Every record an emission produces carries the level it was emitted at. -/
theorem zerologEmit_all_level (lg : ZerologLogger) (l : ZLevel)
    (fs : List (String × String)) (m : String) :
    ((zerologEmit lg l fs m).all fun r => r.level == l) = true := by
  unfold zerologEmit
  split <;> simp

/-- C1 counterexample: with configured minimum level Warn, a Notice call is
below the minimum in the seven-level scheme yet still produces output,
because Notice collapses to the engine's Warn level. -/
theorem c1_notice_emitted_below_min :
    (logAt (New [WithLevel HLevel.warn]) HLevel.notice "m").isSome = true ∧
    HLevel.notice.toNat < HLevel.warn.toNat := by
  exact ⟨rfl, by decide⟩

/-- C1 amended: a plain call at level L against configured minimum M (whether
configured at construction or via SetLevel) produces output iff L is at or
above M, or L is Notice and M is Warn — the one extra pair admitted by the
documented collapse of Notice onto the engine's Warn level. -/
theorem c1_emission_iff (L M : HLevel) (zl : ZLogger) (s : String) :
    ((logAt (New [WithLevel M]) L s).isSome =
      (decide (M.toNat ≤ L.toNat) || (decide (L = HLevel.notice) && decide (M = HLevel.warn)))) ∧
    ((logAt (zl.SetLevel M) L s).isSome =
      (decide (M.toNat ≤ L.toNat) || (decide (L = HLevel.notice) && decide (M = HLevel.warn)))) := by
  constructor <;> (cases L <;> cases M <;> rfl)

/-- C2 counterexample: round-tripping Notice through the engine's scheme and
back yields Notice itself, not Warn — `fromZerologLevel` maps the engine's
Warn level back to Notice. -/
theorem c2_notice_roundtrip_counterexample :
    fromZerologLevel (toZerologLevel HLevel.notice) = HLevel.notice ∧
    fromZerologLevel (toZerologLevel HLevel.notice) ≠ HLevel.warn := by
  decide

/-- C2 amended: the round trip is lossy in the opposite direction from the
claim: Notice round-trips to itself, while Warn round-trips to Notice, not
Warn. -/
theorem c2_roundtrip_collapse :
    fromZerologLevel (toZerologLevel HLevel.notice) = HLevel.notice ∧
    fromZerologLevel (toZerologLevel HLevel.warn) = HLevel.notice ∧
    fromZerologLevel (toZerologLevel HLevel.warn) ≠ HLevel.warn := by
  decide

/-- C3: evaluating the code at the failing input.  A rotating logger built
with JSON format loses that format across SetOutput — the rebuilt base logger
is console-format — while the stored severity level is preserved.  (For the
plain `ZLogger`, SetOutput preserves both; see the conjuncts on `ZLogger`.) -/
theorem c3_rotating_setOutput_loses_format :
    ((NewRotatingLoggerWithFormat ⟨"app.log", 20, 5, 10, true, true⟩ JSONFormat).SetOutput
        (Sink.handle 0)).baseLogger.format = ConsoleFormat ∧
    (NewRotatingLoggerWithFormat ⟨"app.log", 20, 5, 10, true, true⟩
        JSONFormat).baseLogger.format = JSONFormat ∧
    ConsoleFormat ≠ JSONFormat ∧
    ((NewRotatingLoggerWithFormat ⟨"app.log", 20, 5, 10, true, true⟩ JSONFormat).SetOutput
        (Sink.handle 0)).baseLogger.level =
      (NewRotatingLoggerWithFormat ⟨"app.log", 20, 5, 10, true, true⟩
        JSONFormat).baseLogger.level ∧
    (∀ (zl : ZLogger) (w : Sink),
      (zl.SetOutput w).format = zl.format ∧ (zl.SetOutput w).level = zl.level) := by
  refine ⟨rfl, rfl, by decide, rfl, fun zl w => ?_⟩
  unfold ZLogger.SetOutput
  split
  · exact ⟨rfl, rfl⟩
  · split <;> exact ⟨rfl, rfl⟩

/-- C4: the level mapper sends Notice to the engine's Warn level, is total
into the engine's proper levels, and the Notice / Noticef / CtxNoticef
methods all emit at the engine's Warn level (the plain and formatted variants
coincide with Warn / Warnf, and the context variant's emission equals
CtxWarnf's). -/
theorem c4_notice_collapses_to_warn :
    toZerologLevel HLevel.notice = ZLevel.warn ∧
    (∀ l : HLevel, toZerologLevel l ∈
      [ZLevel.trace, ZLevel.debug, ZLevel.info, ZLevel.warn, ZLevel.error, ZLevel.fatal]) ∧
    (∀ (zl : ZLogger) (s : String), zl.Notice s = zl.Warn s ∧ zl.Noticef s = zl.Warnf s) ∧
    (∀ (zl : ZLogger) (ctx : Option Ctx) (s : String),
      (zl.CtxNoticef ctx s).1 = (zl.CtxWarnf ctx s).1 ∧
      ((zl.CtxNoticef ctx s).1.all fun r => r.level == ZLevel.warn) = true ∧
      ((zl.Notice s).all fun r => r.level == ZLevel.warn) = true) := by
  refine ⟨rfl, fun l => by cases l <;> decide, fun zl s => ⟨rfl, rfl⟩,
    fun zl ctx s => ⟨rfl, ?_, ?_⟩⟩
  · exact zerologEmit_all_level zl.logger .warn ((getOtelFields ctx).getD []) s
  · exact zerologEmit_all_level zl.logger .warn [] s

/-- Every hex digit of a value below 16 is a lowercase hexadecimal character. -/
theorem hexDigit_contains : ∀ m < 16, ("0123456789abcdef".data.contains (hexDigit m)) = true := by
  decide

/-- The %02x rendering of a byte is two lowercase hexadecimal characters. -/
theorem hex2_lower_ok (n : Nat) (h : n < 256) :
    (((hex2 n).length == 2) &&
      (hex2 n).data.all fun ch => "0123456789abcdef".data.contains ch) = true := by
  have h1 := hexDigit_contains (n / 16) (Nat.div_lt_of_lt_mul (by omega))
  have h2 := hexDigit_contains (n % 16) (Nat.mod_lt n (by omega))
  simp [hex2]
  exact ⟨by simpa using h1, by simpa using h2⟩

/-- C5: on every context the extractor returns a mapping (never fails), which
is empty exactly when no request id is set and the span is invalid; it holds
the request id under the well-known key exactly when one is set, holds
trace_id and span_id exactly when the span context is valid, holds
trace_flags exactly when additionally the flags byte is non-zero and then as
two lowercase hex characters, and holds no other keys. -/
theorem c5_extractor_contract (c : Ctx) :
    ∃ fs, getOtelFields (some c) = some fs ∧
      (fs = [] ↔ (c.reqID = none ∧ c.spanCtx.isValid = false)) ∧
      fs.lookup LogIDKey = c.reqID ∧
      (fs.lookup "trace_id").isSome = c.spanCtx.isValid ∧
      (fs.lookup "span_id").isSome = c.spanCtx.isValid ∧
      fs.lookup "trace_flags" =
        (if c.spanCtx.isValid && (c.spanCtx.traceFlags.val != 0)
         then some (hex2 c.spanCtx.traceFlags.val) else none) ∧
      (fs.all fun kv => [LogIDKey, "trace_id", "span_id", "trace_flags"].contains kv.1) = true ∧
      ((fs.lookup "trace_flags").all fun fv =>
        ((fv.length == 2) &&
          fv.data.all fun ch => "0123456789abcdef".data.contains ch)) = true := by
  obtain ⟨rid, tid, sid, fl⟩ := c
  have hfl2 := hex2_lower_ok fl.val fl.isLt
  by_cases htid : tid = 0 <;> by_cases hsid : sid = 0 <;>
    by_cases hfl : fl.val = 0 <;> cases rid <;>
    simp [getOtelFields, spanFromContext, SpanContext.isValid, LogIDKey,
      List.lookup, htid, hsid, hfl, hfl2] <;>
    aesop

/-- C9 counterexample: New called with a WithZerologOptions enricher that
lowers the engine level leaves the stored level at the default Info while the
engine filter sits at Debug, so the invariant fails on a state reachable from
New with zero further calls. -/
theorem c9_enricher_breaks_invariant :
    (New [WithZerologOptions [fun lg => { lg with level := ZLevel.debug }]]).logger.level =
      ZLevel.debug ∧
    toZerologLevel
      (New [WithZerologOptions [fun lg => { lg with level := ZLevel.debug }]]).level =
      ZLevel.info ∧
    ZLevel.debug ≠ ZLevel.info := by
  exact ⟨rfl, rfl, by decide⟩

/-- C9 amended: for every ZLogger state reachable from New — with any options
whose resulting configuration registers no logger-enricher functions — via
any sequence of SetLevel and SetOutput calls, the engine's filter level
equals toZerologLevel of the stored level. -/
theorem c9_level_invariant (zl : ZLogger) (h : ReachableNoEnrich zl) :
    zl.logger.level = toZerologLevel zl.level := by
  induction h with
  | fromNew opts hopts =>
      unfold New
      simp only [hopts, List.foldl_nil]
      split
      · rfl
      · split <;> rfl
  | stepLevel zl l hr ih => rfl
  | stepOutput zl w hr ih =>
      unfold ZLogger.SetOutput
      split
      · rfl
      · split <;> rfl

/-- C9 witness: the invariant at a concrete reachable state. -/
theorem c9_level_invariant_witness :
    ((New []).SetOutput (Sink.handle 7)).logger.level =
      toZerologLevel ((New []).SetOutput (Sink.handle 7)).level :=
  c9_level_invariant ((New []).SetOutput (Sink.handle 7))
    (ReachableNoEnrich.stepOutput (New []) (Sink.handle 7)
      (ReachableNoEnrich.fromNew [] rfl))

/-- Every record an emission produces carries the fields it was given. -/
theorem zerologEmit_all_fields (lg : ZerologLogger) (l : ZLevel)
    (fs : List (String × String)) (m : String) :
    ((zerologEmit lg l fs m).all fun r => r.fields == fs) = true := by
  unfold zerologEmit
  split <;> simp

/-- C6: for every context-aware call whose context carries a valid span,
whatever record is emitted carries every extracted context field, one event
named "log" with the message and the severity name is appended to the span,
and the span status is marked as error exactly for the Error and Fatal
severities (statusError is none for the other five). -/
theorem c6_ctx_span_effects (zl : ZLogger) (c : Ctx) (s : String)
    (h : c.spanCtx.isValid = true) :
    (((zl.CtxTracef (some c) s).1.all fun r =>
        r.fields == (getOtelFields (some c)).getD []) = true ∧
      (zl.CtxTracef (some c) s).2 =
        { events := [("log", s, "trace")], statusError := none }) ∧
    (((zl.CtxDebugf (some c) s).1.all fun r =>
        r.fields == (getOtelFields (some c)).getD []) = true ∧
      (zl.CtxDebugf (some c) s).2 =
        { events := [("log", s, "debug")], statusError := none }) ∧
    (((zl.CtxInfof (some c) s).1.all fun r =>
        r.fields == (getOtelFields (some c)).getD []) = true ∧
      (zl.CtxInfof (some c) s).2 =
        { events := [("log", s, "info")], statusError := none }) ∧
    (((zl.CtxNoticef (some c) s).1.all fun r =>
        r.fields == (getOtelFields (some c)).getD []) = true ∧
      (zl.CtxNoticef (some c) s).2 =
        { events := [("log", s, "notice")], statusError := none }) ∧
    (((zl.CtxWarnf (some c) s).1.all fun r =>
        r.fields == (getOtelFields (some c)).getD []) = true ∧
      (zl.CtxWarnf (some c) s).2 =
        { events := [("log", s, "warn")], statusError := none }) ∧
    (((zl.CtxErrorf (some c) s).1.all fun r =>
        r.fields == (getOtelFields (some c)).getD []) = true ∧
      (zl.CtxErrorf (some c) s).2 =
        { events := [("log", s, "error")], statusError := some s }) ∧
    (((zl.CtxFatalf (some c) s).1.all fun r =>
        r.fields == (getOtelFields (some c)).getD []) = true ∧
      (zl.CtxFatalf (some c) s).2 =
        { events := [("log", s, "fatal")], statusError := some s }) := by
  refine ⟨⟨zerologEmit_all_fields _ _ _ _, ?_⟩, ⟨zerologEmit_all_fields _ _ _ _, ?_⟩,
    ⟨zerologEmit_all_fields _ _ _ _, ?_⟩, ⟨zerologEmit_all_fields _ _ _ _, ?_⟩,
    ⟨zerologEmit_all_fields _ _ _ _, ?_⟩, ⟨zerologEmit_all_fields _ _ _ _, ?_⟩,
    ⟨zerologEmit_all_fields _ _ _ _, ?_⟩⟩ <;>
  simp [ZLogger.CtxTracef, ZLogger.CtxDebugf, ZLogger.CtxInfof, ZLogger.CtxNoticef,
    ZLogger.CtxWarnf, ZLogger.CtxErrorf, ZLogger.CtxFatalf, ctxLog, spanFromContext, h]

/-- C6 witness: the span effects of CtxErrorf at a concrete logger, valid
span and message. -/
theorem c6_ctx_span_effects_witness :
    ((New []).CtxErrorf (some ⟨none, ⟨1, 2, 0⟩⟩) "m").2 =
      { events := [("log", "m", "error")], statusError := some "m" } :=
  (c6_ctx_span_effects (New []) ⟨none, ⟨1, 2, 0⟩⟩ "m" (by decide)).2.2.2.2.2.1.2

/-- C7: manual rotation is visibly fallible while ordinary logging is not:
Rotate on a lumberjack-backed rotating logger propagates the destination's
failure as a non-nil error (and its success as nil), Rotate on a non-rotating
writer returns an explicit error rather than silently doing nothing, and the
ordinary log calls delegate to the base logger returning only the optional
emitted record — their result carries no error to surface. -/
theorem c7_rotate_only_visible_failure (cfg : RotateConfig) (e s : String) :
    (NewRotatingLogger cfg).Rotate (Except.error e) = Except.error e ∧
    (NewRotatingLogger cfg).Rotate (Except.ok ()) = Except.ok () ∧
    (∀ r : Except String Unit,
      RotatingLogger.Rotate
          { baseLogger := New [], writer := Sink.handle 0, config := cfg } r =
        Except.error "unable to rotate: writer is not a lumberjack.Logger") ∧
    (∀ rl : RotatingLogger,
      rl.Info s = rl.baseLogger.Info s ∧ rl.Error s = rl.baseLogger.Error s) := by
  exact ⟨rfl, rfl, fun r => rfl, fun rl => ⟨rfl, rfl⟩⟩

/-- C8: the hlog adapter is pure delegation: construction stores exactly the
wrapped logger and nothing else, every plain, formatted and context-aware
method equals the corresponding ZLogger method on the wrapped logger with
untransformed arguments, and the control operations update the wrapped
logger exactly as calling it directly would. -/
theorem c8_adapter_pure_delegation (zl : ZLogger) (s : String) (ctx : Option Ctx)
    (l : HLevel) (w : Sink) :
    (NewHlogAdapter zl).logger = zl ∧
    (NewHlogAdapter zl).Trace s = zl.Trace s ∧
    (NewHlogAdapter zl).Debug s = zl.Debug s ∧
    (NewHlogAdapter zl).Info s = zl.Info s ∧
    (NewHlogAdapter zl).Notice s = zl.Notice s ∧
    (NewHlogAdapter zl).Warn s = zl.Warn s ∧
    (NewHlogAdapter zl).Error s = zl.Error s ∧
    (NewHlogAdapter zl).Fatal s = zl.Fatal s ∧
    (NewHlogAdapter zl).Tracef s = zl.Tracef s ∧
    (NewHlogAdapter zl).Debugf s = zl.Debugf s ∧
    (NewHlogAdapter zl).Infof s = zl.Infof s ∧
    (NewHlogAdapter zl).Noticef s = zl.Noticef s ∧
    (NewHlogAdapter zl).Warnf s = zl.Warnf s ∧
    (NewHlogAdapter zl).Errorf s = zl.Errorf s ∧
    (NewHlogAdapter zl).Fatalf s = zl.Fatalf s ∧
    (NewHlogAdapter zl).CtxTracef ctx s = zl.CtxTracef ctx s ∧
    (NewHlogAdapter zl).CtxDebugf ctx s = zl.CtxDebugf ctx s ∧
    (NewHlogAdapter zl).CtxInfof ctx s = zl.CtxInfof ctx s ∧
    (NewHlogAdapter zl).CtxNoticef ctx s = zl.CtxNoticef ctx s ∧
    (NewHlogAdapter zl).CtxWarnf ctx s = zl.CtxWarnf ctx s ∧
    (NewHlogAdapter zl).CtxErrorf ctx s = zl.CtxErrorf ctx s ∧
    (NewHlogAdapter zl).CtxFatalf ctx s = zl.CtxFatalf ctx s ∧
    ((NewHlogAdapter zl).SetLevel l).logger = zl.SetLevel l ∧
    ((NewHlogAdapter zl).SetOutput w).logger = zl.SetOutput w := by
  exact ⟨rfl, rfl, rfl, rfl, rfl, rfl, rfl, rfl, rfl, rfl, rfl, rfl, rfl, rfl, rfl,
    rfl, rfl, rfl, rfl, rfl, rfl, rfl, rfl, rfl⟩

/-- C10: a nil context never fails a context-aware call: the extractor
returns Go's nil map, and every context-aware method behaves exactly as the
corresponding plain formatted call — no fields attached, no span operations,
the message emitted whenever the configured level admits it (concretely, a
default logger emits a nil-context CtxInfof message). -/
theorem c10_nil_context_safe (zl : ZLogger) (s : String) :
    getOtelFields none = none ∧
    zl.CtxTracef none s = (zl.Tracef s, noSpanOps) ∧
    zl.CtxDebugf none s = (zl.Debugf s, noSpanOps) ∧
    zl.CtxInfof none s = (zl.Infof s, noSpanOps) ∧
    zl.CtxNoticef none s = (zl.Noticef s, noSpanOps) ∧
    zl.CtxWarnf none s = (zl.Warnf s, noSpanOps) ∧
    zl.CtxErrorf none s = (zl.Errorf s, noSpanOps) ∧
    zl.CtxFatalf none s = (zl.Fatalf s, noSpanOps) ∧
    ((New []).CtxInfof none s).1.isSome = true := by
  exact ⟨rfl, rfl, rfl, rfl, rfl, rfl, rfl, rfl, rfl⟩

end Zlog
